import Mathlib

/-!
Shallow embedding of `src/application.py` (a WebSocket-to-HTTP chat relay)
and proofs of the specification claims about it.

Modelling conventions:
* JSON values are the inductive `Json`; numbers are modelled as integers
  (no claim depends on float behaviour).
* Python dictionaries are association lists with distinct keys (as produced
  by `json.loads`); `dictGet` is `dict.get`.
* Python exceptions are `Except String` with the exception's `str(e)` text
  where that text is observable by the client.
* `str.strip()` is `pyStrip`, removing the six ASCII whitespace characters
  Python strips from both ends (Unicode spaces are out of scope).
* The network is an oracle: an inbound frame carries the result of
  `json.loads` on its text, and the HTTP response the gateway would give
  for the message extracted from it.
-/

/-- JSON value, as produced by `json.loads`. -/
inductive Json where
  | null : Json
  | bool (b : Bool) : Json
  | num (n : Int) : Json
  | str (s : String) : Json
  | arr (xs : List Json) : Json
  | obj (kvs : List (String × Json)) : Json

/-- Python type name of a JSON value, as it appears in exception texts. -/
def pyTypeName : Json → String
  | .null => "NoneType"
  | .bool _ => "bool"
  | .num _ => "int"
  | .str _ => "str"
  | .arr _ => "list"
  | .obj _ => "dict"

/-- Python truthiness of a JSON value. -/
def pyTruthy : Json → Bool
  | .null => false
  | .bool b => b
  | .num n => n != 0
  | .str s => s != ""
  | .arr xs => !xs.isEmpty
  | .obj kvs => !kvs.isEmpty

/-- The six ASCII characters `str.strip()` removes. -/
def isPySpace (c : Char) : Bool :=
  c == ' ' || c == '\t' || c == '\n' || c == '\r' || c == '\x0b' || c == '\x0c'

/-- Strip `isPySpace` characters from both ends of a character list. -/
def stripList (l : List Char) : List Char :=
  List.rdropWhile isPySpace (List.dropWhile isPySpace l)

/-- Python `s.strip()`. -/
def pyStrip (s : String) : String :=
  String.mk (stripList s.data)

/-- Python `dict.get(k)`: the value at the first occurrence of `k`, if any. -/
def dictGet (kvs : List (String × Json)) (k : String) : Option Json :=
  (kvs.find? (fun kv => kv.1 == k)).map (fun kv => kv.2)

/-- Exception text of `AttributeError` when `.get` is called on a non-dict. -/
def getAttrErr (j : Json) : String :=
  "\x27" ++ pyTypeName j ++ "\x27 object has no attribute \x27get\x27"

/-- Exception text of `AttributeError` when `.strip` is called on a non-str. -/
def stripAttrErr (j : Json) : String :=
  "\x27" ++ pyTypeName j ++ "\x27 object has no attribute \x27strip\x27"

/-- The for-loop body of `_safe_extract_user_message`: try the keys in
order, returning the stripped value of the first key whose value is a
string with non-blank strip. -/
def extractLoop : List String → List (String × Json) → String
  | [], _ => ""
  | k :: ks, kvs =>
    match dictGet kvs k with
    | some (Json.str v) => if pyStrip v = "" then extractLoop ks kvs else pyStrip v
    | _ => extractLoop ks kvs

/-- `_safe_extract_user_message(payload)`; calling `.get` on a non-dict
payload raises `AttributeError`. -/
def _safe_extract_user_message (payload : Json) : Except String String :=
  match payload with
  | Json.obj kvs => Except.ok (extractLoop ["message", "text", "userMessage", "m"] kvs)
  | other => Except.error (getAttrErr other)

/-- Hexadecimal digit character (lower case), for `\u00XX` escapes. -/
def hexDigit (n : Nat) : Char :=
  if n < 10 then Char.ofNat (48 + n) else Char.ofNat (87 + n)

/-- Two-digit lower-case hexadecimal rendering of `n < 256`. -/
def hex2 (n : Nat) : String :=
  String.mk [hexDigit (n / 16), hexDigit (n % 16)]

/-- JSON string escaping done by `json.dumps` with `ensure_ascii=False`. -/
def escChar (c : Char) : String :=
  if c = '"' then "\\\""
  else if c = '\\' then "\\\\"
  else if c = '\n' then "\\n"
  else if c = '\t' then "\\t"
  else if c = '\r' then "\\r"
  else if c = '\x08' then "\\b"
  else if c = '\x0c' then "\\f"
  else if c.toNat < 32 then "\\u00" ++ hex2 c.toNat
  else String.mk [c]

/-- Escape every character of a string for JSON output. -/
def escString (s : String) : String :=
  String.join (s.data.map escChar)

mutual
/-- `json.dumps(v, ensure_ascii=False)` with the default separators. -/
def dumps : Json → String
  | .null => "null"
  | .bool b => if b then "true" else "false"
  | .num n => toString n
  | .str s => "\"" ++ escString s ++ "\""
  | .arr xs => "[" ++ dumpsList xs ++ "]"
  | .obj kvs => "\x7b" ++ dumpsObj kvs ++ "\x7d"

/-- Comma-separated serialization of an array's elements. -/
def dumpsList : List Json → String
  | [] => ""
  | [x] => dumps x
  | x :: y :: xs => dumps x ++ ", " ++ dumpsList (y :: xs)

/-- Comma-separated serialization of an object's key-value pairs. -/
def dumpsObj : List (String × Json) → String
  | [] => ""
  | [(k, v)] => "\"" ++ escString k ++ "\": " ++ dumps v
  | (k, v) :: kv :: kvs => "\"" ++ escString k ++ "\": " ++ dumps v ++ ", " ++ dumpsObj (kv :: kvs)
end

/-- Python `v.get(k, dflt)`: `AttributeError` on a non-dict receiver. -/
def pyGetDefault (v : Json) (k : String) (dflt : Json) : Except String Json :=
  match v with
  | Json.obj kvs => Except.ok ((dictGet kvs k).getD dflt)
  | other => Except.error (getAttrErr other)

/-- Python `v[0]`: first element of a list, one-character string of a
string; `IndexError` when empty, `KeyError`/`TypeError` otherwise.  The
error texts are never observable (the caller catches every exception). -/
def pyGetItem0 (v : Json) : Except String Json :=
  match v with
  | Json.arr (x :: _) => Except.ok x
  | Json.arr [] => Except.error "IndexError: list index out of range"
  | Json.str s =>
    match s.data with
    | c :: _ => Except.ok (Json.str (String.mk [c]))
    | [] => Except.error "IndexError: string index out of range"
  | Json.obj _ => Except.error "KeyError: 0"
  | other => Except.error ("TypeError: " ++ pyTypeName other)

/-- The expression `r.get("choices", [som]])[0].get("message", som).get("content", "")`
from `call_bot_api`, with Python's defaults `[som]` = `[` an empty dict `]`. -/
def extractContent (r : Json) : Except String Json := do
  let choices ← pyGetDefault r "choices" (Json.arr [Json.obj []])
  let c0 ← pyGetItem0 choices
  let msg ← pyGetDefault c0 "message" (Json.obj [])
  pyGetDefault msg "content" (Json.str "")

/-- One HTTP exchange with the gateway: the status, the body text, and the
result of `resp.json()` (`Except.error` when parsing the body raises). -/
structure HttpResp where
  status : Nat
  text : String
  json : Except String Json

/-- `call_bot_api`, given the gateway's HTTP response for the message.
Status `>= 400` raises `RuntimeError` with the status and the body
truncated to 300 characters; otherwise the nested reply field is
extracted (`or ""` turning a falsy result into the empty string), and if
the extraction expression itself raises, the whole parsed response is
serialized instead. -/
def call_bot_api (resp : HttpResp) : Except String Json :=
  if 400 ≤ resp.status then
    Except.error ("BOT_API HTTP " ++ toString resp.status ++ ": " ++ resp.text.take 300)
  else
    match resp.json with
    | Except.error e => Except.error e
    | Except.ok r =>
      match extractContent r with
      | Except.ok c => Except.ok (if pyTruthy c then c else Json.str "")
      | Except.error _ => Except.ok (Json.str (dumps r))

/-- The handler's `(bot_text or "").strip()`: falsy results become the
empty string; `.strip` on a (truthy) non-string raises `AttributeError`. -/
def pyStripJson (v : Json) : Except String String :=
  match (if pyTruthy v then v else Json.str "") with
  | Json.str s => Except.ok (pyStrip s)
  | other => Except.error (stripAttrErr other)

/-- Default `BOT_NAME` (no environment override modelled). -/
def BOT_NAME : String := "신한투자증권 프로봇"

/-- An outbound frame: `json.dumps` of exactly these three fields is the
only shape `ws_chatbot` ever writes to the socket. -/
structure Envelope where
  type : String
  role : String
  message : String
deriving DecidableEq

/-- The envelope sent right after `websocket.accept()`. -/
def greetingEnv : Envelope :=
  ⟨"message", "assistant", BOT_NAME ++ "입니다. 무엇을 도와드릴까요?"⟩

/-- The typing notification envelope. -/
def typingEnv : Envelope :=
  ⟨"typing", "system", BOT_NAME ++ "이(가) 입력 중입니다…"⟩

/-- The error envelope sent for a blank user message. -/
def emptyMsgErrorEnv : Envelope :=
  ⟨"error", "system", "빈 메시지는 처리할 수 없습니다."⟩

/-- The error envelope sent when `call_bot_api` raises. -/
def botFailEnv (e : String) : Envelope :=
  ⟨"error", "system", "봇 호출 실패: " ++ e⟩

/-- The assistant reply envelope. -/
def msgEnv (t : String) : Envelope :=
  ⟨"message", "assistant", t⟩

/-- The best-effort error envelope sent by the outer exception handler. -/
def serverErrorEnv (e : String) : Envelope :=
  ⟨"error", "system", "서버 오류: " ++ e⟩

/-- The fixed reply substituted for a blank gateway answer. -/
def fallbackReply : String := "응답을 생성하지 못했습니다. 다시 시도해 주세요."

/-- One inbound frame together with its environment: the raw frame text,
the result of `json.loads(raw)` (`none` when parsing raises), and the
gateway's HTTP response should the handler place a call. -/
structure Inbound where
  raw : String
  parsed : Option Json
  resp : HttpResp

/-- The payload the loop works on: the parsed JSON, falling back to
a dict holding the raw text under the `message` key. -/
def payloadOf (f : Inbound) : Json :=
  match f.parsed with
  | some j => j
  | none => Json.obj [("message", Json.str f.raw)]

/-- What one loop iteration produced: envelopes sent inside the iteration,
number of gateway calls placed, and the text of an exception that escaped
the iteration (propagating to the outer handler), if any. -/
structure FrameOutcome where
  sent : List Envelope
  gatewayCalls : Nat
  crash : Option String
deriving DecidableEq

/-- The body of the `while True` loop of `ws_chatbot` for one inbound
frame, mirroring `src/application.py` lines 103-166. -/
def handleFrame (f : Inbound) : FrameOutcome :=
  match _safe_extract_user_message (payloadOf f) with
  | Except.error e => ⟨[], 0, some e⟩
  | Except.ok t =>
    if t = "" then ⟨[emptyMsgErrorEnv], 0, none⟩
    else
      match call_bot_api f.resp with
      | Except.error e => ⟨[typingEnv, botFailEnv e], 1, none⟩
      | Except.ok v =>
        match pyStripJson v with
        | Except.error e => ⟨[typingEnv], 1, some e⟩
        | Except.ok s => ⟨[typingEnv, msgEnv (if s = "" then fallbackReply else s)], 1, none⟩

/-- All envelopes a frame causes: the iteration's own sends, then the
outer handler's best-effort error envelope when the iteration crashed. -/
def frameEnvelopes (f : Inbound) : List Envelope :=
  (handleFrame f).sent ++
    (match (handleFrame f).crash with
     | some e => [serverErrorEnv e]
     | none => [])

/-- Envelopes sent by the loop over a whole session: frames are processed
in order; a crash ends the loop after the best-effort error envelope; the
frame list ending models `WebSocketDisconnect` (clean exit, nothing sent). -/
def sessionBody : List Inbound → List Envelope
  | [] => []
  | f :: fs =>
    frameEnvelopes f ++
      (match (handleFrame f).crash with
       | some _ => []
       | none => sessionBody fs)

/-- `ws_chatbot`: everything sent on one connection, greeting first. -/
def ws_chatbot (frames : List Inbound) : List Envelope :=
  greetingEnv :: sessionBody frames

/-- Whether an envelope concludes the handling of one inbound message. -/
def isFinalType (e : Envelope) : Bool :=
  e.type == "message" || e.type == "error"

/-- Whether a JSON value is an object (a Python dict). -/
def Json.isObj : Json → Bool
  | .obj _ => true
  | _ => false

/-- Spec-shaped reading of the extraction rule for one key: the raw (un-
stripped) value under `k`, provided it is a string whose strip is
non-blank. -/
def keyCandidate (kvs : List (String × Json)) (k : String) : Option String :=
  match dictGet kvs k with
  | some (Json.str v) => if pyStrip v = "" then none else some v
  | _ => none

/-- Spec-shaped reading of the whole extraction rule: the first key in
priority order whose value is a non-blank string, yielding that raw
value. -/
def firstCandidate (kvs : List (String × Json)) : List String → Option String
  | [] => none
  | k :: ks =>
    match keyCandidate kvs k with
    | some v => some v
    | none => firstCandidate kvs ks

/-- The priority order of inbound message keys. -/
def messageKeys : List String := ["message", "text", "userMessage", "m"]

lemma extractLoop_eq_firstCandidate (kvs : List (String × Json)) (ks : List String) :
    extractLoop ks kvs = ((firstCandidate kvs ks).map pyStrip).getD "" := by
  induction ks with
  | nil => rfl
  | cons k ks ih =>
    simp only [extractLoop, firstCandidate, keyCandidate]
    cases h : dictGet kvs k with
    | none => simpa using ih
    | some v =>
      cases v with
      | str s =>
        by_cases hs : pyStrip s = ""
        · simpa [hs] using ih
        · simp [hs]
      | null => simpa using ih
      | bool b => simpa using ih
      | num n => simpa using ih
      | arr xs => simpa using ih
      | obj kvs2 => simpa using ih

lemma dropWhile_cons_false {p : Char → Bool} {l : List Char} {c : Char} {t : List Char}
    (h : List.dropWhile p l = c :: t) : p c = false := by
  induction l generalizing t with
  | nil => simp [List.dropWhile] at h
  | cons a l ih =>
    rw [List.dropWhile_cons] at h
    by_cases hp : p a
    · rw [if_pos hp] at h
      exact ih h
    · rw [if_neg hp] at h
      cases h
      exact Bool.not_eq_true _ |>.mp hp

lemma stripList_idem (l : List Char) : stripList (stripList l) = stripList l := by
  unfold stripList
  obtain ⟨u, hu⟩ :=
    List.dropWhile_suffix (l := (List.dropWhile isPySpace l).reverse) isPySpace
  have hAR : List.dropWhile isPySpace l =
      List.rdropWhile isPySpace (List.dropWhile isPySpace l) ++ u.reverse := by
    have h2 := congrArg List.reverse hu
    simp only [List.reverse_append, List.reverse_reverse] at h2
    rw [List.rdropWhile]
    exact h2.symm
  have hmain : List.dropWhile isPySpace
      (List.rdropWhile isPySpace (List.dropWhile isPySpace l)) =
      List.rdropWhile isPySpace (List.dropWhile isPySpace l) := by
    cases hR : List.rdropWhile isPySpace (List.dropWhile isPySpace l) with
    | nil => rfl
    | cons c R =>
      have hAc : List.dropWhile isPySpace l = c :: (R ++ u.reverse) := by
        rw [hAR, hR]
        rfl
      have hpc : isPySpace c = false := dropWhile_cons_false hAc
      rw [List.dropWhile_cons, hpc]
      simp
  rw [hmain, List.rdropWhile_idempotent]

lemma pyStrip_idem (s : String) : pyStrip (pyStrip s) = pyStrip s := by
  show String.mk (stripList (String.mk (stripList s.data)).data) = String.mk (stripList s.data)
  rw [show (String.mk (stripList s.data)).data = stripList s.data from rfl, stripList_idem]

lemma pyStripJson_str (s : String) : pyStripJson (Json.str s) = Except.ok (pyStrip s) := by
  by_cases hs : s = ""
  · subst hs
    rfl
  · simp [pyStripJson, pyTruthy, hs]

lemma pyStripJson_ok {v : Json} {s : String} (h : pyStripJson v = Except.ok s) :
    ∃ u, s = pyStrip u := by
  unfold pyStripJson at h
  cases hv : (if pyTruthy v then v else Json.str "") with
  | str u =>
    rw [hv] at h
    exact ⟨u, (Except.ok.inj h).symm⟩
  | null => rw [hv] at h; exact absurd h (by simp)
  | bool b => rw [hv] at h; exact absurd h (by simp)
  | num n => rw [hv] at h; exact absurd h (by simp)
  | arr xs => rw [hv] at h; exact absurd h (by simp)
  | obj kvs => rw [hv] at h; exact absurd h (by simp)

lemma handleFrame_extract_error {f : Inbound} {e : String}
    (hex : _safe_extract_user_message (payloadOf f) = Except.error e) :
    handleFrame f = ⟨[], 0, some e⟩ := by
  simp [handleFrame, hex]

lemma handleFrame_blank {f : Inbound}
    (hex : _safe_extract_user_message (payloadOf f) = Except.ok "") :
    handleFrame f = ⟨[emptyMsgErrorEnv], 0, none⟩ := by
  simp [handleFrame, hex]

lemma handleFrame_callfail {f : Inbound} {t e : String}
    (hex : _safe_extract_user_message (payloadOf f) = Except.ok t) (ht : t ≠ "")
    (hcall : call_bot_api f.resp = Except.error e) :
    handleFrame f = ⟨[typingEnv, botFailEnv e], 1, none⟩ := by
  simp [handleFrame, hex, ht, hcall]

lemma handleFrame_badreply {f : Inbound} {t e : String} {v : Json}
    (hex : _safe_extract_user_message (payloadOf f) = Except.ok t) (ht : t ≠ "")
    (hcall : call_bot_api f.resp = Except.ok v)
    (hbad : pyStripJson v = Except.error e) :
    handleFrame f = ⟨[typingEnv], 1, some e⟩ := by
  simp [handleFrame, hex, ht, hcall, hbad]

lemma handleFrame_goodreply {f : Inbound} {t s : String} {v : Json}
    (hex : _safe_extract_user_message (payloadOf f) = Except.ok t) (ht : t ≠ "")
    (hcall : call_bot_api f.resp = Except.ok v)
    (hgood : pyStripJson v = Except.ok s) :
    handleFrame f = ⟨[typingEnv, msgEnv (if s = "" then fallbackReply else s)], 1, none⟩ := by
  simp [handleFrame, hex, ht, hcall, hgood]

lemma handleFrame_success {f : Inbound} {t s : String}
    (hex : _safe_extract_user_message (payloadOf f) = Except.ok t) (ht : t ≠ "")
    (hcall : call_bot_api f.resp = Except.ok (Json.str s)) :
    handleFrame f =
      ⟨[typingEnv, msgEnv (if pyStrip s = "" then fallbackReply else pyStrip s)], 1, none⟩ :=
  handleFrame_goodreply hex ht hcall (pyStripJson_str s)

lemma handleFrame_cases (f : Inbound) :
    (∃ e, handleFrame f = ⟨[], 0, some e⟩)
    ∨ handleFrame f = ⟨[emptyMsgErrorEnv], 0, none⟩
    ∨ (∃ e, handleFrame f = ⟨[typingEnv, botFailEnv e], 1, none⟩)
    ∨ (∃ e, handleFrame f = ⟨[typingEnv], 1, some e⟩)
    ∨ (∃ u, handleFrame f =
        ⟨[typingEnv, msgEnv (if pyStrip u = "" then fallbackReply else pyStrip u)], 1, none⟩) := by
  cases hex : _safe_extract_user_message (payloadOf f) with
  | error e => exact Or.inl ⟨e, handleFrame_extract_error hex⟩
  | ok t =>
    by_cases ht : t = ""
    · subst ht
      exact Or.inr (Or.inl (handleFrame_blank hex))
    · cases hcall : call_bot_api f.resp with
      | error e => exact Or.inr (Or.inr (Or.inl ⟨e, handleFrame_callfail hex ht hcall⟩))
      | ok v =>
        cases hstrip : pyStripJson v with
        | error e =>
          exact Or.inr (Or.inr (Or.inr (Or.inl ⟨e, handleFrame_badreply hex ht hcall hstrip⟩)))
        | ok s =>
          obtain ⟨u, rfl⟩ := pyStripJson_ok hstrip
          exact Or.inr (Or.inr (Or.inr (Or.inr ⟨u, handleFrame_goodreply hex ht hcall hstrip⟩)))

lemma frameEnvelopes_cases (f : Inbound) :
    (∃ e, frameEnvelopes f = [serverErrorEnv e])
    ∨ frameEnvelopes f = [emptyMsgErrorEnv]
    ∨ (∃ e, frameEnvelopes f = [typingEnv, botFailEnv e])
    ∨ (∃ e, frameEnvelopes f = [typingEnv, serverErrorEnv e])
    ∨ (∃ u, frameEnvelopes f =
        [typingEnv, msgEnv (if pyStrip u = "" then fallbackReply else pyStrip u)]) := by
  rcases handleFrame_cases f with ⟨e, h⟩ | h | ⟨e, h⟩ | ⟨e, h⟩ | ⟨u, h⟩
  · exact Or.inl ⟨e, by simp [frameEnvelopes, h]⟩
  · exact Or.inr (Or.inl (by simp [frameEnvelopes, h]))
  · exact Or.inr (Or.inr (Or.inl ⟨e, by simp [frameEnvelopes, h]⟩))
  · exact Or.inr (Or.inr (Or.inr (Or.inl ⟨e, by simp [frameEnvelopes, h]⟩)))
  · exact Or.inr (Or.inr (Or.inr (Or.inr ⟨u, by simp [frameEnvelopes, h]⟩)))

lemma sessionBody_cons (f : Inbound) (fs : List Inbound) :
    sessionBody (f :: fs) =
      frameEnvelopes f ++
        (match (handleFrame f).crash with
         | some _ => []
         | none => sessionBody fs) := rfl

/-- C2 (counterexample): the extracted user message is not always the
first non-blank string value itself — for the payload
`(message : "  hi  ")` the code returns the stripped string `hi`, not the
raw value `  hi  `. -/
theorem c2_extraction_counterexample :
    _safe_extract_user_message (Json.obj [("message", Json.str "  hi  ")]) ≠
      Except.ok "  hi  "
    ∧ _safe_extract_user_message (Json.obj [("message", Json.str "  hi  ")]) =
      Except.ok "hi" := by
  constructor
  · intro h
    rw [show _safe_extract_user_message (Json.obj [("message", Json.str "  hi  ")]) =
        Except.ok "hi" from rfl] at h
    exact absurd (Except.ok.inj h) (by decide)
  · rfl

/-- C2 (amended): for every inbound payload mapping, the extracted user
message is the first value that is a string with non-blank strip, found
when checking the keys in the fixed priority order `message`, `text`,
`userMessage`, `m`, with its surrounding whitespace stripped; in
particular, if `message` holds a non-blank string the alias keys are
ignored, and if no key yields a non-blank string the result is the empty
string. -/
theorem c2_extraction_priority (kvs : List (String × Json)) :
    _safe_extract_user_message (Json.obj kvs) =
      Except.ok (((firstCandidate kvs messageKeys).map pyStrip).getD "") := by
  simp [_safe_extract_user_message, messageKeys, extractLoop_eq_firstCandidate]

/-- C3 (counterexample): the envelope sent on connection open does not
have type `greeting` — a session with no inbound frames contains no
envelope of type `greeting` at all (the opening envelope has type
`message`). -/
theorem c3_greeting_counterexample :
    ¬ (((ws_chatbot []).filter (fun e => e.type == "greeting")).length = 1) := by
  decide

/-- C3 (amended): on every connection open the handler sends exactly one
opening envelope, immediately after the connection is accepted and before
any inbound frame is processed; its type field is `message` (not
`greeting`) and its role is `assistant`. -/
theorem c3_opening_envelope (frames : List Inbound) :
    ws_chatbot frames = greetingEnv :: sessionBody frames
    ∧ (ws_chatbot frames).head? = some greetingEnv
    ∧ greetingEnv.type = "message"
    ∧ greetingEnv.role = "assistant" :=
  ⟨rfl, rfl, rfl, rfl⟩

/-- C6: an inbound text frame that fails to parse as JSON is recovered by
treating the raw frame text as the value of the `message` field — the
loop body behaves exactly as it would on a frame parsing to the object
`(message : raw)`, whatever the raw text and gateway response. -/
theorem c6_malformed_json_fallback (raw other : String) (resp : HttpResp) :
    handleFrame ⟨raw, none, resp⟩ =
      handleFrame ⟨other, some (Json.obj [("message", Json.str raw)]), resp⟩ := rfl

/-- C9: an inbound frame parsing to valid JSON that is not an object makes
the extraction step raise `AttributeError` (the value has no `get`
method); the loop body sends nothing and crashes, and the session then
sends a single best-effort `error` envelope and exits — later frames are
not processed. -/
theorem c9_nonobject_payload (f : Inbound) (j : Json) (rest : List Inbound)
    (hp : f.parsed = some j) (hobj : j.isObj = false) :
    handleFrame f = ⟨[], 0, some (getAttrErr j)⟩
    ∧ sessionBody (f :: rest) = [serverErrorEnv (getAttrErr j)] := by
  have hpay : payloadOf f = j := by simp [payloadOf, hp]
  have hex : _safe_extract_user_message (payloadOf f) = Except.error (getAttrErr j) := by
    rw [hpay]
    cases j with
    | obj kvs => simp [Json.isObj] at hobj
    | null => rfl
    | bool b => rfl
    | num n => rfl
    | str s => rfl
    | arr xs => rfl
  have hh := handleFrame_extract_error hex
  refine ⟨hh, ?_⟩
  rw [sessionBody_cons, hh]
  simp [frameEnvelopes, hh]

/-- Witness for C9 at the concrete frame whose text parses to the JSON
string `hello`. -/
theorem c9_nonobject_payload_witness :
    handleFrame ⟨"\"hello\"", some (Json.str "hello"), ⟨200, "", Except.error "x"⟩⟩ =
      ⟨[], 0, some (getAttrErr (Json.str "hello"))⟩
    ∧ sessionBody [⟨"\"hello\"", some (Json.str "hello"), ⟨200, "", Except.error "x"⟩⟩] =
      [serverErrorEnv (getAttrErr (Json.str "hello"))] :=
  c9_nonobject_payload ⟨"\"hello\"", some (Json.str "hello"), ⟨200, "", Except.error "x"⟩⟩
    (Json.str "hello") [] rfl rfl

/-- C1: for every inbound frame processed by the loop body, exactly one
outbound envelope of type `message` or `error` is sent for it, preceded
at most by one optional `typing` envelope; and when the extracted user
message is blank the handler sends only the blank-message `error`
envelope and places no gateway call. -/
theorem c1_per_message_invariant (f : Inbound) :
    ((frameEnvelopes f).filter isFinalType).length = 1
    ∧ (∃ pre fin, frameEnvelopes f = pre ++ [fin]
        ∧ (fin.type = "message" ∨ fin.type = "error")
        ∧ (pre = [] ∨ pre = [typingEnv]))
    ∧ (_safe_extract_user_message (payloadOf f) = Except.ok "" →
        frameEnvelopes f = [emptyMsgErrorEnv] ∧ (handleFrame f).gatewayCalls = 0) := by
  refine ⟨?_, ?_, ?_⟩
  · rcases frameEnvelopes_cases f with ⟨e, h⟩ | h | ⟨e, h⟩ | ⟨e, h⟩ | ⟨u, h⟩ <;> rw [h] <;> rfl
  · rcases frameEnvelopes_cases f with ⟨e, h⟩ | h | ⟨e, h⟩ | ⟨e, h⟩ | ⟨u, h⟩
    · exact ⟨[], serverErrorEnv e, by simpa using h, Or.inr rfl, Or.inl rfl⟩
    · exact ⟨[], emptyMsgErrorEnv, by simpa using h, Or.inr rfl, Or.inl rfl⟩
    · exact ⟨[typingEnv], botFailEnv e, by simpa using h, Or.inr rfl, Or.inr rfl⟩
    · exact ⟨[typingEnv], serverErrorEnv e, by simpa using h, Or.inr rfl, Or.inr rfl⟩
    · exact ⟨[typingEnv], msgEnv (if pyStrip u = "" then fallbackReply else pyStrip u),
        by simpa using h, Or.inl rfl, Or.inr rfl⟩
  · intro hblank
    have hh := handleFrame_blank hblank
    exact ⟨by simp [frameEnvelopes, hh], by simp [hh]⟩

/-- Witness for C1 at the frame parsing to the empty object: only the
blank-message error envelope is sent and no gateway call is made. -/
theorem c1_per_message_invariant_witness :
    frameEnvelopes ⟨"\x7b\x7d", some (Json.obj []), ⟨200, "", Except.error "x"⟩⟩ =
      [emptyMsgErrorEnv]
    ∧ (handleFrame ⟨"\x7b\x7d", some (Json.obj []), ⟨200, "", Except.error "x"⟩⟩).gatewayCalls
      = 0 :=
  (c1_per_message_invariant ⟨"\x7b\x7d", some (Json.obj []), ⟨200, "", Except.error "x"⟩⟩).2.2 rfl

/-- C4: when the gateway answers with HTTP status at least 400,
`call_bot_api` fails with an error carrying the status code and the
response body truncated to 300 characters, and the handler sends the
client a `typing` envelope followed by one `error` envelope whose text
embeds that description, places exactly one gateway call, and continues
the loop. -/
theorem c4_gateway_http_error (f : Inbound) (t : String)
    (h400 : 400 ≤ f.resp.status)
    (hex : _safe_extract_user_message (payloadOf f) = Except.ok t)
    (ht : t ≠ "") :
    call_bot_api f.resp =
      Except.error ("BOT_API HTTP " ++ toString f.resp.status ++ ": " ++ f.resp.text.take 300)
    ∧ (handleFrame f).sent =
      [typingEnv,
       botFailEnv ("BOT_API HTTP " ++ toString f.resp.status ++ ": " ++ f.resp.text.take 300)]
    ∧ (handleFrame f).gatewayCalls = 1
    ∧ (handleFrame f).crash = none
    ∧ (∀ rest, sessionBody (f :: rest) =
        [typingEnv,
         botFailEnv ("BOT_API HTTP " ++ toString f.resp.status ++ ": " ++ f.resp.text.take 300)]
          ++ sessionBody rest) := by
  have hcall : call_bot_api f.resp =
      Except.error ("BOT_API HTTP " ++ toString f.resp.status ++ ": " ++ f.resp.text.take 300) := by
    simp [call_bot_api, h400]
  have hh := handleFrame_callfail hex ht hcall
  refine ⟨hcall, by simp [hh], by simp [hh], by simp [hh], ?_⟩
  intro rest
  rw [sessionBody_cons, hh]
  simp [frameEnvelopes, hh]

/-- Witness for C4: a 500 response with body `boom` on the frame
`(message : "hi")`. -/
theorem c4_gateway_http_error_witness :
    call_bot_api (⟨500, "boom", Except.error "x"⟩ : HttpResp) =
      Except.error ("BOT_API HTTP " ++ toString (500 : Nat) ++ ": " ++ String.take "boom" 300)
    ∧ (handleFrame ⟨"m", some (Json.obj [("message", Json.str "hi")]),
        ⟨500, "boom", Except.error "x"⟩⟩).sent =
      [typingEnv,
       botFailEnv ("BOT_API HTTP " ++ toString (500 : Nat) ++ ": " ++ String.take "boom" 300)]
    ∧ (handleFrame ⟨"m", some (Json.obj [("message", Json.str "hi")]),
        ⟨500, "boom", Except.error "x"⟩⟩).gatewayCalls = 1
    ∧ (handleFrame ⟨"m", some (Json.obj [("message", Json.str "hi")]),
        ⟨500, "boom", Except.error "x"⟩⟩).crash = none
    ∧ (∀ rest, sessionBody
        (⟨"m", some (Json.obj [("message", Json.str "hi")]), ⟨500, "boom", Except.error "x"⟩⟩
          :: rest) =
        [typingEnv,
         botFailEnv ("BOT_API HTTP " ++ toString (500 : Nat) ++ ": " ++ String.take "boom" 300)]
          ++ sessionBody rest) :=
  c4_gateway_http_error
    ⟨"m", some (Json.obj [("message", Json.str "hi")]), ⟨500, "boom", Except.error "x"⟩⟩
    "hi" (by decide) rfl (by decide)

/-- C5: when the gateway status is below 400 and the body parses as JSON
`r`, `call_bot_api` returns the nested field `choices[0].message.content`
(a falsy value, in particular the default empty string used when the
field is absent, becoming the empty string), and returns the whole parsed
response serialized when the extraction expression itself raises; on the
canonically shaped response the nested field is exactly the reply string,
and on an empty object the default makes it the empty string. -/
theorem c5_gateway_success_extraction (resp : HttpResp) (r : Json)
    (hs : resp.status < 400) (hj : resp.json = Except.ok r) :
    (∀ c, extractContent r = Except.ok c →
        call_bot_api resp = Except.ok (if pyTruthy c then c else Json.str ""))
    ∧ (∀ e, extractContent r = Except.error e →
        call_bot_api resp = Except.ok (Json.str (dumps r)))
    ∧ (∀ s, extractContent
        (Json.obj [("choices",
          Json.arr [Json.obj [("message", Json.obj [("content", Json.str s)])]])]) =
        Except.ok (Json.str s))
    ∧ extractContent (Json.obj []) = Except.ok (Json.str "") := by
  have hnot : ¬ 400 ≤ resp.status := by omega
  refine ⟨?_, ?_, fun s => rfl, rfl⟩
  · intro c hc
    simp [call_bot_api, hnot, hj, hc]
  · intro e he
    simp [call_bot_api, hnot, hj, he]

/-- Witness for C5 at a 200 response with the canonical body shape
holding the reply `hello`. -/
theorem c5_gateway_success_extraction_witness :
    call_bot_api
      (⟨200, "b", Except.ok (Json.obj [("choices",
        Json.arr [Json.obj [("message", Json.obj [("content", Json.str "hello")])]])])⟩
        : HttpResp) =
      Except.ok (if pyTruthy (Json.str "hello") then Json.str "hello" else Json.str "") :=
  (c5_gateway_success_extraction
    ⟨200, "b", Except.ok (Json.obj [("choices",
      Json.arr [Json.obj [("message", Json.obj [("content", Json.str "hello")])]])])⟩
    (Json.obj [("choices",
      Json.arr [Json.obj [("message", Json.obj [("content", Json.str "hello")])]])])
    (by decide) rfl).1 (Json.str "hello") rfl

/-- C7 (counterexample): a gateway call can succeed while the handler
sends no `message` envelope at all — when the nested reply field is the
number `5`, `call_bot_api` succeeds returning the non-string value, the
handler's `.strip()` then raises, and the frame yields a `typing`
envelope followed by a server-error envelope only. -/
theorem c7_nonstring_reply_counterexample :
    call_bot_api (⟨200, "", Except.ok (Json.obj [("choices",
      Json.arr [Json.obj [("message", Json.obj [("content", Json.num 5)])]])])⟩ : HttpResp) =
      Except.ok (Json.num 5)
    ∧ ((frameEnvelopes ⟨"m", some (Json.obj [("message", Json.str "hi")]),
        ⟨200, "", Except.ok (Json.obj [("choices",
          Json.arr [Json.obj [("message", Json.obj [("content", Json.num 5)])]])])⟩⟩).filter
        (fun e => e.type == "message")).length = 0 := by
  exact ⟨rfl, rfl⟩

/-- C7 (amended): for every inbound user message whose gateway call
succeeds with a string result, the handler sends exactly one `typing`
envelope before exactly one `message` envelope, in that order, with no
other envelope sent for that message, and the loop continues. -/
theorem c7_typing_then_message (f : Inbound) (t s : String)
    (hex : _safe_extract_user_message (payloadOf f) = Except.ok t)
    (ht : t ≠ "")
    (hcall : call_bot_api f.resp = Except.ok (Json.str s)) :
    frameEnvelopes f =
      [typingEnv, msgEnv (if pyStrip s = "" then fallbackReply else pyStrip s)]
    ∧ (handleFrame f).crash = none := by
  have hh := handleFrame_success hex ht hcall
  exact ⟨by simp [frameEnvelopes, hh], by simp [hh]⟩

/-- Witness for C7 at the frame `(message : "hi")` with a 200 canonical
response whose reply is `hello`. -/
theorem c7_typing_then_message_witness :
    frameEnvelopes ⟨"m", some (Json.obj [("message", Json.str "hi")]),
      ⟨200, "", Except.ok (Json.obj [("choices",
        Json.arr [Json.obj [("message", Json.obj [("content", Json.str "hello")])]])])⟩⟩ =
      [typingEnv, msgEnv (if pyStrip "hello" = "" then fallbackReply else pyStrip "hello")]
    ∧ (handleFrame ⟨"m", some (Json.obj [("message", Json.str "hi")]),
        ⟨200, "", Except.ok (Json.obj [("choices",
          Json.arr [Json.obj [("message", Json.obj [("content", Json.str "hello")])]])])⟩⟩).crash
      = none :=
  c7_typing_then_message
    ⟨"m", some (Json.obj [("message", Json.str "hi")]),
      ⟨200, "", Except.ok (Json.obj [("choices",
        Json.arr [Json.obj [("message", Json.obj [("content", Json.str "hello")])]])])⟩⟩
    "hi" "hello" rfl (by decide) rfl

lemma mem_frameEnvelopes_wf (f : Inbound) (e : Envelope) (he : e ∈ frameEnvelopes f) :
    (e.type = "greeting" ∨ e.type = "typing" ∨ e.type = "message" ∨ e.type = "error")
    ∧ (e.role = "assistant" ∨ e.role = "system") := by
  rcases frameEnvelopes_cases f with ⟨x, h⟩ | h | ⟨x, h⟩ | ⟨x, h⟩ | ⟨u, h⟩ <;> rw [h] at he
  · rcases List.mem_singleton.mp he with rfl
    exact ⟨Or.inr (Or.inr (Or.inr rfl)), Or.inr rfl⟩
  · rcases List.mem_singleton.mp he with rfl
    exact ⟨Or.inr (Or.inr (Or.inr rfl)), Or.inr rfl⟩
  · rcases List.mem_cons.mp he with rfl | he2
    · exact ⟨Or.inr (Or.inl rfl), Or.inr rfl⟩
    · rcases List.mem_singleton.mp he2 with rfl
      exact ⟨Or.inr (Or.inr (Or.inr rfl)), Or.inr rfl⟩
  · rcases List.mem_cons.mp he with rfl | he2
    · exact ⟨Or.inr (Or.inl rfl), Or.inr rfl⟩
    · rcases List.mem_singleton.mp he2 with rfl
      exact ⟨Or.inr (Or.inr (Or.inr rfl)), Or.inr rfl⟩
  · rcases List.mem_cons.mp he with rfl | he2
    · exact ⟨Or.inr (Or.inl rfl), Or.inr rfl⟩
    · rcases List.mem_singleton.mp he2 with rfl
      exact ⟨Or.inr (Or.inr (Or.inl rfl)), Or.inl rfl⟩

lemma mem_sessionBody_wf (frames : List Inbound) (e : Envelope)
    (he : e ∈ sessionBody frames) :
    (e.type = "greeting" ∨ e.type = "typing" ∨ e.type = "message" ∨ e.type = "error")
    ∧ (e.role = "assistant" ∨ e.role = "system") := by
  induction frames with
  | nil => simp [sessionBody] at he
  | cons f fs ih =>
    rw [sessionBody_cons] at he
    rcases List.mem_append.mp he with h | h
    · exact mem_frameEnvelopes_wf f e h
    · cases hc : (handleFrame f).crash with
      | some x => rw [hc] at h; simp at h
      | none => rw [hc] at h; exact ih h

/-- C8: every envelope `ws_chatbot` sends is a record of exactly the
three fields `type`, `role`, `message` (enforced by the `Envelope`
structure, whose `message` field is a string), with `type` among
`greeting`, `typing`, `message`, `error` and `role` among `assistant`,
`system`; no outbound frame of any other shape exists. -/
theorem c8_outbound_envelope_shape (frames : List Inbound) (e : Envelope)
    (he : e ∈ ws_chatbot frames) :
    (e.type = "greeting" ∨ e.type = "typing" ∨ e.type = "message" ∨ e.type = "error")
    ∧ (e.role = "assistant" ∨ e.role = "system") := by
  rw [ws_chatbot] at he
  rcases List.mem_cons.mp he with rfl | h
  · exact ⟨Or.inr (Or.inr (Or.inl rfl)), Or.inl rfl⟩
  · exact mem_sessionBody_wf frames e h

/-- Witness for C8 at the opening envelope of an empty session. -/
theorem c8_outbound_envelope_shape_witness :
    (greetingEnv.type = "greeting" ∨ greetingEnv.type = "typing"
      ∨ greetingEnv.type = "message" ∨ greetingEnv.type = "error")
    ∧ (greetingEnv.role = "assistant" ∨ greetingEnv.role = "system") :=
  c8_outbound_envelope_shape [] greetingEnv
    (by rw [ws_chatbot]; exact List.Mem.head _)

/-- C10: every `message`-type envelope the loop body sends carries a
non-blank text — when the gateway call succeeds with a reply that is
empty or whitespace only, the fixed non-empty fallback string is
substituted before sending. -/
theorem c10_message_envelope_nonblank (f : Inbound) :
    (∀ e, e ∈ (handleFrame f).sent → e.type = "message" → pyStrip e.message ≠ "")
    ∧ (∀ t s, _safe_extract_user_message (payloadOf f) = Except.ok t → t ≠ "" →
        call_bot_api f.resp = Except.ok (Json.str s) → pyStrip s = "" →
        (handleFrame f).sent = [typingEnv, msgEnv fallbackReply]) := by
  constructor
  · intro e he htype
    rcases handleFrame_cases f with ⟨x, h⟩ | h | ⟨x, h⟩ | ⟨x, h⟩ | ⟨u, h⟩ <;> rw [h] at he
    · simp at he
    · rcases List.mem_singleton.mp he with rfl
      exact absurd htype (by decide)
    · rcases List.mem_cons.mp he with rfl | he2
      · exact absurd htype (by decide)
      · rcases List.mem_singleton.mp he2 with rfl
        exact absurd (show ("error" : String) = "message" from htype) (by decide)
    · rcases List.mem_singleton.mp he with rfl
      exact absurd htype (by decide)
    · rcases List.mem_cons.mp he with rfl | he2
      · exact absurd htype (by decide)
      · rcases List.mem_singleton.mp he2 with rfl
        show pyStrip (if pyStrip u = "" then fallbackReply else pyStrip u) ≠ ""
        by_cases hu : pyStrip u = ""
        · rw [if_pos hu]
          decide
        · rw [if_neg hu, pyStrip_idem]
          exact hu
  · intro t s hex ht hcall hps
    have hh := handleFrame_success hex ht hcall
    rw [hh]
    simp [hps]

/-- Witness for C10: the reply envelope for a non-blank reply carries a
non-blank text, and a whitespace-only reply `"  "` is replaced by the
fixed fallback string. -/
theorem c10_message_envelope_nonblank_witness :
    pyStrip (msgEnv "hello").message ≠ ""
    ∧ (handleFrame ⟨"m", some (Json.obj [("message", Json.str "hi")]),
        ⟨200, "", Except.ok (Json.obj [("choices",
          Json.arr [Json.obj [("message", Json.obj [("content", Json.str "  ")])]])])⟩⟩).sent =
      [typingEnv, msgEnv fallbackReply] :=
  ⟨(c10_message_envelope_nonblank ⟨"m", some (Json.obj [("message", Json.str "hi")]),
      ⟨200, "", Except.ok (Json.obj [("choices",
        Json.arr [Json.obj [("message", Json.obj [("content", Json.str "hello")])]])])⟩⟩).1
      (msgEnv "hello") (by decide) rfl,
   (c10_message_envelope_nonblank ⟨"m", some (Json.obj [("message", Json.str "hi")]),
      ⟨200, "", Except.ok (Json.obj [("choices",
        Json.arr [Json.obj [("message", Json.obj [("content", Json.str "  ")])]])])⟩⟩).2
      "hi" "  " rfl (by decide) rfl rfl⟩
